import Mathlib

/-!
Verification development for the streaming continuation controller.

The definitions below are a shallow embedding of the repository sources:

  * app/lib/.server/llm/constants.ts  (MAX_TOKENS, MAX_RESPONSE_SEGMENTS)
  * utils/constants.ts                (DEFAULT_MODEL, DEFAULT_PROVIDER, staticModels, MODEL_LIST)
  * app/lib/.server/llm/stream-text.ts (extractModelFromMessage, streamText model resolution)
  * app/routes chat action            (continuation loop in onFinish)
  * SwitchableStream                  (switchSource, the pump, close)

Strings are modelled with the core String type (a list of characters in this
toolchain); the regular expression of the source is translated into an
explicit character scan with the same lazy-match semantics.
-/

/-- Message roles, as in the CoreMessage type used by the source. -/
inductive Role where
  | user
  | assistant
  | system
deriving DecidableEq, Repr

/-- Message content: either plain text or a non-text payload.  The source
checks typeof message.content !== a string and treats any non-string payload
uniformly, so a single nonText constructor is faithful. -/
inductive Content where
  | text (s : String)
  | nonText
deriving DecidableEq, Repr

/-- A chat message, mirroring the shape used by stream-text.ts. -/
structure Message where
  role : Role
  content : Content
deriving DecidableEq, Repr

/-- An entry of the model registry, mirroring ModelInfo of utils/constants.ts. -/
structure ModelInfo where
  name : String
  label : String
  provider : String
deriving DecidableEq, Repr

/-- DEFAULT_MODEL of utils/constants.ts. -/
def DEFAULT_MODEL : String := "claude-3-5-sonnet-20240620"

/-- DEFAULT_PROVIDER of utils/constants.ts. -/
def DEFAULT_PROVIDER : String := "Anthropic"

/-- MAX_TOKENS of app/lib/.server/llm/constants.ts. -/
def MAX_TOKENS : Nat := 8000

/-- MAX_RESPONSE_SEGMENTS of app/lib/.server/llm/constants.ts. -/
def MAX_RESPONSE_SEGMENTS : Nat := 2

/-- The static model registry of utils/constants.ts, entry for entry. -/
def staticModels : List ModelInfo :=
  [ ⟨"claude-3-5-sonnet-20240620", "Claude 3.5 Sonnet", "Anthropic"⟩,
    ⟨"gpt-4o", "GPT-4o", "OpenAI"⟩,
    ⟨"anthropic/claude-3.5-sonnet", "Anthropic: Claude 3.5 Sonnet (OpenRouter)", "OpenRouter"⟩,
    ⟨"anthropic/claude-3-haiku", "Anthropic: Claude 3 Haiku (OpenRouter)", "OpenRouter"⟩,
    ⟨"deepseek/deepseek-coder", "Deepseek-Coder V2 236B (OpenRouter)", "OpenRouter"⟩,
    ⟨"google/gemini-flash-1.5", "Google Gemini Flash 1.5 (OpenRouter)", "OpenRouter"⟩,
    ⟨"google/gemini-pro-1.5", "Google Gemini Pro 1.5 (OpenRouter)", "OpenRouter"⟩,
    ⟨"x-ai/grok-beta", "xAI Grok Beta (OpenRouter)", "OpenRouter"⟩,
    ⟨"mistralai/mistral-nemo", "OpenRouter Mistral Nemo (OpenRouter)", "OpenRouter"⟩,
    ⟨"qwen/qwen-110b-chat", "OpenRouter Qwen 110b Chat (OpenRouter)", "OpenRouter"⟩,
    ⟨"cohere/command", "Cohere Command (OpenRouter)", "OpenRouter"⟩,
    ⟨"gemini-1.5-flash-latest", "Gemini 1.5 Flash", "Google"⟩,
    ⟨"gemini-1.5-pro-latest", "Gemini 1.5 Pro", "Google"⟩,
    ⟨"llama-3.1-70b-versatile", "Llama 3.1 70b (Groq)", "Groq"⟩,
    ⟨"llama-3.1-8b-instant", "Llama 3.1 8b (Groq)", "Groq"⟩,
    ⟨"llama-3.2-11b-vision-preview", "Llama 3.2 11b (Groq)", "Groq"⟩,
    ⟨"llama-3.2-3b-preview", "Llama 3.2 3b (Groq)", "Groq"⟩,
    ⟨"llama-3.2-1b-preview", "Llama 3.2 1b (Groq)", "Groq"⟩,
    ⟨"claude-3-opus-20240229", "Claude 3 Opus", "Anthropic"⟩,
    ⟨"claude-3-sonnet-20240229", "Claude 3 Sonnet", "Anthropic"⟩,
    ⟨"claude-3-haiku-20240307", "Claude 3 Haiku", "Anthropic"⟩,
    ⟨"gpt-4o-mini", "GPT-4o Mini", "OpenAI"⟩,
    ⟨"gpt-4-turbo", "GPT-4 Turbo", "OpenAI"⟩,
    ⟨"gpt-4", "GPT-4", "OpenAI"⟩,
    ⟨"gpt-3.5-turbo", "GPT-3.5 Turbo", "OpenAI"⟩,
    ⟨"grok-beta", "xAI Grok Beta", "xAI"⟩,
    ⟨"deepseek-coder", "Deepseek-Coder", "Deepseek"⟩,
    ⟨"deepseek-chat", "Deepseek-Chat", "Deepseek"⟩,
    ⟨"open-mistral-7b", "Mistral 7B", "Mistral"⟩,
    ⟨"open-mixtral-8x7b", "Mistral 8x7B", "Mistral"⟩,
    ⟨"open-mixtral-8x22b", "Mistral 8x22B", "Mistral"⟩,
    ⟨"open-codestral-mamba", "Codestral Mamba", "Mistral"⟩,
    ⟨"open-mistral-nemo", "Mistral Nemo", "Mistral"⟩,
    ⟨"ministral-8b-latest", "Mistral 8B", "Mistral"⟩,
    ⟨"mistral-small-latest", "Mistral Small", "Mistral"⟩,
    ⟨"codestral-latest", "Codestral", "Mistral"⟩,
    ⟨"mistral-large-latest", "Mistral Large Latest", "Mistral"⟩ ]

/-- MODEL_LIST of utils/constants.ts as initialized from the static list.
Dynamic discovery only prepends further entries at startup and is out of
scope of the claims. -/
def MODEL_LIST : List ModelInfo := staticModels

/-- Modelled from the spec: CONTINUE_PROMPT lives in prompts.ts, which is not
among the provided sources.  Section 6 of the spec describes it as a fixed,
human-readable instruction telling the model to continue exactly where it
left off, sent as a synthetic user turn.  Such plain prose carries no leading
model directive; the wording below follows that description. -/
def CONTINUE_PROMPT : String :=
  "Continue your prior response. IMPORTANT: Immediately begin from where you left off without any interruptions. Do not repeat any content."

/-- Recognizer for the literal regex head ^\[Model:(space) of stream-text.ts:
consumes the eight leading characters of the directive when present. -/
def dropModelTag : List Char → Option (List Char)
  | '[' :: 'M' :: 'o' :: 'd' :: 'e' :: 'l' :: ':' :: ' ' :: rest => some rest
  | _ => none

/-- Lazy capture of the source regex body (.*?)\]\n\n: at each position the
close-bracket-blank-line exit is tried first, a line terminator fails the
match, and otherwise one character is consumed into the capture.  Returns the
captured identifier and the remainder after the blank line. -/
def matchIdent : List Char → Option (List Char × List Char)
  | [] => none
  | c :: cs =>
    if c = ']' ∧ cs.take 2 = ['\n', '\n'] then
      some ([], cs.drop 2)
    else if c = '\n' ∨ c = '\r' then
      none
    else
      (matchIdent cs).map fun p => (c :: p.1, p.2)

/-- extractModelFromMessage of stream-text.ts: non-text content yields the
default model and empty content; a matching directive yields the captured
identifier and the content with the directive prefix removed; otherwise the
default model and the unchanged content. -/
def extractModelFromMessage (msg : Message) : String × String :=
  match msg.content with
  | .nonText => (DEFAULT_MODEL, "")
  | .text s =>
    match dropModelTag s.toList with
    | some r =>
      match matchIdent r with
      | some (ident, rest) => (String.mk ident, String.mk rest)
      | none => (DEFAULT_MODEL, s)
    | none => (DEFAULT_MODEL, s)

/-- Whether the directive regex of stream-text.ts matches the message content. -/
def hasDirective (msg : Message) : Bool :=
  match msg.content with
  | .nonText => false
  | .text s =>
    match dropModelTag s.toList with
    | some r => (matchIdent r).isSome
    | none => false

/-- One step of the currentModel fold inside streamText: a user message with a
truthy extracted model that is found in the list overwrites the current model;
every other message leaves it unchanged. -/
def updateModel (list : List ModelInfo) (current : String) (msg : Message) : String :=
  match msg.role with
  | .user =>
    let model := (extractModelFromMessage msg).1
    if model = "" then current
    else if (list.find? fun m => m.name = model).isSome then model
    else current
  | _ => current

/-- The per-message content rewrite of streamText: user messages get the
extracted (directive-stripped) content, other messages pass through. -/
def processMessage (msg : Message) : Message :=
  match msg.role with
  | .user => { msg with content := .text (extractModelFromMessage msg).2 }
  | _ => msg

/-- The processed message list streamText forwards to the provider call. -/
def processedMessages (ms : List Message) : List Message :=
  ms.map processMessage

/-- The currentModel value after streamText has mapped over all messages,
starting from DEFAULT_MODEL. -/
def resolveModel (list : List ModelInfo) (ms : List Message) : String :=
  ms.foldl (updateModel list) DEFAULT_MODEL

/-- The provider lookup of streamText: find the resolved model in the list and
take its provider, falling back to DEFAULT_PROVIDER when the model is absent
or its provider field is falsy. -/
def resolveProvider (list : List ModelInfo) (model : String) : String :=
  match list.find? fun m => m.name = model with
  | some info => if info.provider = "" then DEFAULT_PROVIDER else info.provider
  | none => DEFAULT_PROVIDER

/-- The (model, provider) pair streamText resolves for one call. -/
def streamTextResolved (list : List ModelInfo) (ms : List Message) : String × String :=
  (resolveModel list ms, resolveProvider list (resolveModel list ms))

/-- The message extension performed by onFinish of the chat action before a
continuation call: push the truncated assistant text and the continuation
instruction onto the original (unstripped) message array. -/
def continuationMessages (ms : List Message) (content : String) : List Message :=
  ms ++ [⟨.assistant, .text content⟩, ⟨.user, .text CONTINUE_PROMPT⟩]

/-- Stop reasons observed by onFinish. -/
inductive FinishReason where
  | stop
  | length
  | error
deriving DecidableEq, Repr

/-- State of the downstream end of the SwitchableStream readable. -/
inductive DownStatus where
  | opened
  | closedNormal
  | errored
deriving DecidableEq, Repr

/-- An upstream source stream as seen through its reader: the chunks it will
deliver, whether a read eventually throws after them, and whether cancel
rejects. -/
structure Source (α : Type) where
  chunks : List α
  streamErr : Bool
  cancelErr : Bool
deriving DecidableEq, Repr

/-- State of a SwitchableStream: chunks already forwarded downstream, the
currently attached reader if any, the switch counter, and the downstream
status. -/
structure SplicerState (α : Type) where
  output : List α
  reader : Option (Source α)
  switches : Nat
  status : DownStatus
deriving DecidableEq, Repr

namespace SwitchableStream

variable {α : Type}

/-- A freshly constructed SwitchableStream: controller captured, no reader
attached, switch counter zero, downstream open. -/
def initState : SplicerState α := ⟨[], none, 0, .opened⟩

/-- A reader whose stream has been cancelled: no chunks remain, no pending
error, and a further cancel resolves immediately. -/
def cancelledReader : Source α := ⟨[], false, false⟩

/-- The pump loop of SwitchableStream: under the cooperative scheduler it
forwards every chunk of the attached reader downstream in order; a read error
after the chunks errors the controller.  When the downstream is no longer
open, enqueue throws and the error call on a non-readable controller is a
no-op, so nothing is forwarded.  The driver never pumps without a reader
attached. -/
def pumpAll (st : SplicerState α) : SplicerState α :=
  match st.reader with
  | none => st
  | some src =>
    if st.status = .opened then
      ⟨st.output ++ src.chunks,
       some ⟨[], false, src.cancelErr⟩,
       st.switches,
       if src.streamErr then .errored else .opened⟩
    else
      st

/-- switchSource of SwitchableStream: when a reader is attached its
cancellation is awaited first; a rejected cancel makes switchSource itself
reject (the Bool component) before the new reader is installed, otherwise the
new reader is installed, pumped, and the switch counter is incremented.  The
undelivered chunks of the cancelled previous source are discarded. -/
def switchSource (st : SplicerState α) (newSrc : Source α) : SplicerState α × Bool :=
  match st.reader with
  | some src =>
    if src.cancelErr then
      ({ st with reader := some cancelledReader }, true)
    else
      let st1 := pumpAll { st with reader := some newSrc }
      ({ st1 with switches := st1.switches + 1 }, false)
  | none =>
    let st1 := pumpAll { st with reader := some newSrc }
    ({ st1 with switches := st1.switches + 1 }, false)

/-- close of SwitchableStream: cancel the attached reader when present
(fire-and-forget, so a cancel rejection never surfaces) and terminate the
controller, which closes the downstream side only when it is still open. -/
def close (st : SplicerState α) : SplicerState α :=
  { st with
    reader := st.reader.map fun _ => cancelledReader,
    status := if st.status = .opened then .closedNormal else st.status }

end SwitchableStream

/-- Result of one provider call as observed by onFinish: the chunks its
stream produced and the reported finish reason.  The accumulated text of the
segment is the concatenation of the chunks. -/
structure SegmentResult where
  chunks : List String
  reason : FinishReason
deriving DecidableEq, Repr

/-- How a chat session run ends: stream closed normally, or the continuation
cap was exceeded and the handler threw the given error message. -/
inductive Outcome where
  | closed
  | capExceeded (msg : String)
deriving DecidableEq, Repr

/-- Observable result of a chat session: final splicer state, the per-segment
accumulated texts in order, the number of provider calls made, and how the
session ended. -/
structure ChatResult where
  st : SplicerState String
  texts : List String
  calls : Nat
  outcome : Outcome
deriving DecidableEq, Repr

/-- The continuation loop of the chat action, driven by the stop reason each
segment reports.  The counter argument left equals cap minus the switch
counter after the current switch, i.e. the switchesLeft quantity the source
logs: a length-truncated segment continues while left is positive and throws
the cap error at zero; any other reason closes the stream.  Provider streams
deliver their chunks and neither fail reads nor reject cancels, matching the
SDK streams the source consumes. -/
def chatLoop (provider : Nat → SegmentResult) : Nat → SplicerState String → Nat → ChatResult
  | idx, st, left =>
    let seg := provider idx
    let st1 := (SwitchableStream.switchSource st ⟨seg.chunks, false, false⟩).1
    match seg.reason with
    | .length =>
      match left with
      | 0 =>
        ⟨st1, [String.join seg.chunks], 1,
         .capExceeded ("Cannot continue message: Maximum segments reached")⟩
      | left2 + 1 =>
        let r := chatLoop provider (idx + 1) st1 left2
        ⟨r.st, String.join seg.chunks :: r.texts, r.calls + 1, r.outcome⟩
    | _ => ⟨SwitchableStream.close st1, [String.join seg.chunks], 1, .closed⟩

/-- One full chat session with segment cap as in chatAction: segment zero is
always started, and after segment k the guard switches at k plus one being at
least cap decides between throwing and continuing, which is exactly the
chatLoop counter starting at cap minus one. -/
def chatRun (provider : Nat → SegmentResult) (cap : Nat) : ChatResult :=
  chatLoop provider 0 SwitchableStream.initState (cap - 1)

/-- The splicing pattern of a multi-segment session in isolation: attach and
fully pump each segment source in order, then close, as the controller does
after the last completion signal. -/
def runSegments (st : SplicerState α) : List (Source α) → SplicerState α
  | [] => SwitchableStream.close st
  | s :: rest => runSegments (SwitchableStream.switchSource st s).1 rest

/-- Claim C1 (code bug evaluation).  The spec asserts the (provider, model)
pair resolved for segment 0 is reused for every continuation segment.  On the
failing input below, segment 0 resolves (gpt-4o, OpenAI) from the directive,
but the continuation call re-resolves over the extended message list, whose
final user turn is the directive-free continuation instruction, so routing
resets to the default pair (claude-3-5-sonnet-20240620, Anthropic): the pair
is not reused. -/
theorem continuation_reresolves_to_default :
    streamTextResolved MODEL_LIST [⟨.user, .text ("[Model: gpt-4o]\n\nHello")⟩] =
      ("gpt-4o", "OpenAI") ∧
    streamTextResolved MODEL_LIST
        (continuationMessages [⟨.user, .text ("[Model: gpt-4o]\n\nHello")⟩] ("part one")) =
      (DEFAULT_MODEL, DEFAULT_PROVIDER) ∧
    ("gpt-4o", "OpenAI") ≠ (DEFAULT_MODEL, DEFAULT_PROVIDER) := by
  refine ⟨by decide, by decide, by decide⟩

/-- Claim C2.  With cap MAX_RESPONSE_SEGMENTS, a provider that always reports
stop reason length with nonempty text yields exactly cap segments and cap
provider calls, and the session ends with the
continuation-cap-exceeded error. -/
theorem always_length_hits_cap (provider : Nat → SegmentResult)
    (h : ∀ i, (provider i).reason = FinishReason.length ∧
              String.join (provider i).chunks ≠ "") :
    (chatRun provider MAX_RESPONSE_SEGMENTS).calls = MAX_RESPONSE_SEGMENTS ∧
    (chatRun provider MAX_RESPONSE_SEGMENTS).texts.length = MAX_RESPONSE_SEGMENTS ∧
    (chatRun provider MAX_RESPONSE_SEGMENTS).st.switches = MAX_RESPONSE_SEGMENTS ∧
    (chatRun provider MAX_RESPONSE_SEGMENTS).outcome =
      Outcome.capExceeded ("Cannot continue message: Maximum segments reached") := by
  obtain ⟨h0, -⟩ := h 0
  obtain ⟨h1, -⟩ := h 1
  simp [chatRun, MAX_RESPONSE_SEGMENTS, chatLoop, h0, h1,
    SwitchableStream.switchSource, SwitchableStream.pumpAll, SwitchableStream.initState]

/-- Witness for C2 at a concrete always-length provider. -/
theorem always_length_hits_cap_witness :
    (chatRun (fun _ => ⟨["x"], .length⟩) MAX_RESPONSE_SEGMENTS).calls = MAX_RESPONSE_SEGMENTS ∧
    (chatRun (fun _ => ⟨["x"], .length⟩) MAX_RESPONSE_SEGMENTS).texts.length = MAX_RESPONSE_SEGMENTS ∧
    (chatRun (fun _ => ⟨["x"], .length⟩) MAX_RESPONSE_SEGMENTS).st.switches = MAX_RESPONSE_SEGMENTS ∧
    (chatRun (fun _ => ⟨["x"], .length⟩) MAX_RESPONSE_SEGMENTS).outcome =
      Outcome.capExceeded ("Cannot continue message: Maximum segments reached") :=
  by
  apply always_length_hits_cap
  intro i
  refine ⟨rfl, ?_⟩
  show String.join ["x"] ≠ ""
  decide

/-- Claim C4 (counterexample).  The claim asserts that with cap 2 three
consecutive length completions lead to failure after segment index 2, the
third provider call.  The code refuses already after segment index 1: with an
always-length provider only two provider calls are made, never three. -/
theorem cap_two_makes_two_calls_not_three :
    (chatRun (fun _ => ⟨["x"], .length⟩) 2).calls = 2 ∧
    (chatRun (fun _ => ⟨["x"], .length⟩) 2).calls ≠ 3 ∧
    (chatRun (fun _ => ⟨["x"], .length⟩) 2).outcome =
      Outcome.capExceeded ("Cannot continue message: Maximum segments reached") := by
  refine ⟨by decide, by decide, by decide⟩

/-- Claim C4 (amended).  With cap 2 and consecutive length completions the
session ends in failure after segment index 1, the second provider call, with
the cap error; a third call is never attempted. -/
theorem cap_two_fails_after_second_call (provider : Nat → SegmentResult)
    (h : ∀ i, i < 3 → (provider i).reason = FinishReason.length) :
    (chatRun provider 2).calls = 2 ∧
    (chatRun provider 2).outcome =
      Outcome.capExceeded ("Cannot continue message: Maximum segments reached") := by
  have h0 := h 0 (by omega)
  have h1 := h 1 (by omega)
  simp [chatRun, chatLoop, h0, h1,
    SwitchableStream.switchSource, SwitchableStream.pumpAll, SwitchableStream.initState]

/-- Witness for the amended C4. -/
theorem cap_two_fails_after_second_call_witness :
    (chatRun (fun _ => ⟨["y"], .length⟩) 2).calls = 2 ∧
    (chatRun (fun _ => ⟨["y"], .length⟩) 2).outcome =
      Outcome.capExceeded ("Cannot continue message: Maximum segments reached") :=
  cap_two_fails_after_second_call (fun _ => ⟨["y"], .length⟩) (fun _ _ => rfl)

/-- Claim C7 (counterexample).  The claim asserts a segment completing with
stop reason error makes the output channel terminate with an error signal
rather than a normal end-of-stream.  The completion handler treats every
reason other than length by calling close, so with a provider reporting error
the downstream ends closedNormal, a normal end-of-stream. -/
theorem error_reason_closes_normally :
    (chatRun (fun _ => ⟨["partial"], .error⟩) 2).st.status = DownStatus.closedNormal ∧
    DownStatus.closedNormal ≠ DownStatus.errored ∧
    (chatRun (fun _ => ⟨["partial"], .error⟩) 2).outcome = Outcome.closed := by
  refine ⟨by decide, by decide, by decide⟩

/-- Claim C7 (amended).  A segment reporting stop reason error is treated by
the completion handler like any non-length reason: the session closes the
output channel with a normal end-of-stream and the partial output already
delivered is preserved.  An error thrown by the active source while pumping,
by contrast, errors the output channel, also without retracting the chunks
already forwarded. -/
theorem error_handling_split (provider : Nat → SegmentResult) (cap : Nat)
    (st : SplicerState String) (src : Source String)
    (hp : (provider 0).reason = FinishReason.error)
    (hs : st.status = DownStatus.opened)
    (he : src.streamErr = true) :
    ((chatRun provider cap).outcome = Outcome.closed ∧
     (chatRun provider cap).st.status = DownStatus.closedNormal ∧
     (chatRun provider cap).st.output = (provider 0).chunks) ∧
    ((SwitchableStream.pumpAll { st with reader := some src }).status = DownStatus.errored ∧
     (SwitchableStream.pumpAll { st with reader := some src }).output =
       st.output ++ src.chunks) := by
  constructor
  · rw [chatRun, chatLoop.eq_def]
    simp [hp, SwitchableStream.switchSource, SwitchableStream.pumpAll,
      SwitchableStream.initState, SwitchableStream.close]
  · simp [SwitchableStream.pumpAll, hs, he]

/-- Witness for the amended C7 at concrete inputs. -/
theorem error_handling_split_witness :
    ((chatRun (fun _ => ⟨["p"], .error⟩) 2).outcome = Outcome.closed ∧
     (chatRun (fun _ => ⟨["p"], .error⟩) 2).st.status = DownStatus.closedNormal ∧
     (chatRun (fun _ => ⟨["p"], .error⟩) 2).st.output = ((fun _ => (⟨["p"], .error⟩ : SegmentResult)) 0).chunks) ∧
    ((SwitchableStream.pumpAll { (⟨["a"], none, 0, .opened⟩ : SplicerState String) with
        reader := some ⟨["b"], true, false⟩ }).status = DownStatus.errored ∧
     (SwitchableStream.pumpAll { (⟨["a"], none, 0, .opened⟩ : SplicerState String) with
        reader := some ⟨["b"], true, false⟩ }).output =
       (⟨["a"], none, 0, .opened⟩ : SplicerState String).output ++
         (⟨["b"], true, false⟩ : Source String).chunks) :=
  error_handling_split (fun _ => ⟨["p"], .error⟩) 2 ⟨["a"], none, 0, .opened⟩
    ⟨["b"], true, false⟩ rfl rfl rfl

/-- Claim C8.  close cancels the attached reader when one exists, closes the
downstream side, and is idempotent: closing an already closed stream changes
nothing and raises no error. -/
theorem close_idempotent (st : SplicerState String) (src : Source String)
    (h1 : st.reader = some src) (h2 : st.status = DownStatus.opened) :
    (SwitchableStream.close st).reader = some SwitchableStream.cancelledReader ∧
    (SwitchableStream.close st).status = DownStatus.closedNormal ∧
    SwitchableStream.close (SwitchableStream.close st) = SwitchableStream.close st := by
  obtain ⟨out, rd, sw, status⟩ := st
  simp only at h1 h2
  subst h1 h2
  simp [SwitchableStream.close]

/-- Witness for C8: closing a stream with an attached reader whose cancel
would even reject changes nothing on the second close. -/
theorem close_idempotent_witness :
    (SwitchableStream.close (⟨["h"], some ⟨["r"], false, true⟩, 1, .opened⟩ : SplicerState String)).reader =
      some SwitchableStream.cancelledReader ∧
    (SwitchableStream.close (⟨["h"], some ⟨["r"], false, true⟩, 1, .opened⟩ : SplicerState String)).status =
      DownStatus.closedNormal ∧
    SwitchableStream.close (SwitchableStream.close (⟨["h"], some ⟨["r"], false, true⟩, 1, .opened⟩ : SplicerState String)) =
      SwitchableStream.close (⟨["h"], some ⟨["r"], false, true⟩, 1, .opened⟩ : SplicerState String) :=
  close_idempotent ⟨["h"], some ⟨["r"], false, true⟩, 1, .opened⟩ ⟨["r"], false, true⟩ rfl rfl

/-- Claim C9 (counterexample).  The claim asserts errors raised by cancelling
the previous source are swallowed and switchSource does not fail.  With an
attached reader whose cancel rejects, switchSource itself rejects (second
component true), the switch counter is not incremented and the new source is
not installed. -/
theorem cancel_rejection_propagates :
    (SwitchableStream.switchSource
        (⟨["d"], some ⟨["old"], false, true⟩, 1, .opened⟩ : SplicerState String)
        ⟨["new"], false, false⟩).2 = true ∧
    (SwitchableStream.switchSource
        (⟨["d"], some ⟨["old"], false, true⟩, 1, .opened⟩ : SplicerState String)
        ⟨["new"], false, false⟩).1.switches = 1 ∧
    (SwitchableStream.switchSource
        (⟨["d"], some ⟨["old"], false, true⟩, 1, .opened⟩ : SplicerState String)
        ⟨["new"], false, false⟩).1.output = ["d"] := by
  refine ⟨by decide, by decide, by decide⟩

/-- Claim C9 (amended).  switchSource awaits cancellation of the previous
source before installing the new one.  When that cancellation rejects,
switchSource rejects and the new source is not installed; when it succeeds,
the undelivered chunks of the previous source are discarded before the new
source is installed and pumped, and the switch counter is incremented. -/
theorem switch_cancels_before_install (st : SplicerState String)
    (src newSrc : Source String)
    (h1 : st.reader = some src) (h2 : st.status = DownStatus.opened) :
    (src.cancelErr = true →
      SwitchableStream.switchSource st newSrc =
        ({ st with reader := some SwitchableStream.cancelledReader }, true)) ∧
    (src.cancelErr = false →
      SwitchableStream.switchSource st newSrc =
        (⟨st.output ++ newSrc.chunks, some ⟨[], false, newSrc.cancelErr⟩,
          st.switches + 1,
          if newSrc.streamErr then DownStatus.errored else DownStatus.opened⟩, false)) := by
  obtain ⟨out, rd, sw, status⟩ := st
  simp only at h1 h2
  subst h1 h2
  constructor
  · intro hc
    simp [SwitchableStream.switchSource, hc]
  · intro hc
    simp [SwitchableStream.switchSource, SwitchableStream.pumpAll, hc]

/-- Witness for the amended C9: a clean cancel installs and pumps the new
source and increments the switch counter. -/
theorem switch_cancels_before_install_witness :
    SwitchableStream.switchSource
        (⟨[], some ⟨["z"], false, false⟩, 0, .opened⟩ : SplicerState String)
        ⟨["n"], false, false⟩ =
      (⟨[] ++ ["n"], some ⟨[], false, false⟩, 0 + 1,
        if false then DownStatus.errored else DownStatus.opened⟩, false) :=
  (switch_cancels_before_install ⟨[], some ⟨["z"], false, false⟩, 0, .opened⟩
    ⟨["z"], false, false⟩ ⟨["n"], false, false⟩ rfl rfl).2 rfl

/-- Helper for C3: pumping a list of clean segment sources from any open
state whose attached reader, if any, cancels cleanly appends exactly the
concatenation of their chunks, increments the switch counter once per
segment, and ends with a normally closed downstream. -/
theorem runSegments_clean (segs : List (Source String)) :
    ∀ st : SplicerState String,
      (∀ s ∈ segs, s.streamErr = false ∧ s.cancelErr = false) →
      st.status = DownStatus.opened →
      (∀ src, st.reader = some src → src.cancelErr = false) →
      (runSegments st segs).output = st.output ++ (segs.map Source.chunks).flatten ∧
      (runSegments st segs).status = DownStatus.closedNormal ∧
      (runSegments st segs).switches = st.switches + segs.length := by
  induction segs with
  | nil =>
    intro st _ hst _
    obtain ⟨out, rd, sw, status⟩ := st
    simp only at hst
    subst hst
    simp [runSegments, SwitchableStream.close]
  | cons s rest ih =>
    intro st hseg hst hrd
    obtain ⟨hse, hsc⟩ := hseg s (by simp)
    obtain ⟨out, rd, sw, status⟩ := st
    simp only at hst hrd
    subst hst
    have hstep : SwitchableStream.switchSource
        (⟨out, rd, sw, DownStatus.opened⟩ : SplicerState String) s =
        (⟨out ++ s.chunks, some ⟨[], false, s.cancelErr⟩, sw + 1, DownStatus.opened⟩, false) := by
      cases rd with
      | none => simp [SwitchableStream.switchSource, SwitchableStream.pumpAll, hse]
      | some src =>
        have : src.cancelErr = false := hrd src rfl
        simp [SwitchableStream.switchSource, SwitchableStream.pumpAll, this, hse]
    have := ih (⟨out ++ s.chunks, some ⟨[], false, s.cancelErr⟩, sw + 1, DownStatus.opened⟩ :
        SplicerState String)
      (fun t ht => hseg t (by simp [ht]))
      rfl
      (by intro src hsrc; simp only [Option.some.injEq] at hsrc; rw [← hsrc, hsc])
    rw [runSegments, hstep]
    refine ⟨?_, this.2.1, ?_⟩
    · rw [this.1]
      simp
    · rw [this.2.2]
      simp
      omega

/-- Claim C3.  For a multi-segment session over clean sources, the output
observed by the caller is exactly the concatenation of the segment chunk
lists in segment order, with nothing duplicated or dropped at switch
boundaries, one switch per segment, and a normal close at the end. -/
theorem splicer_output_is_ordered_join (segs : List (Source String))
    (h : ∀ s ∈ segs, s.streamErr = false ∧ s.cancelErr = false) :
    (runSegments SwitchableStream.initState segs).output = (segs.map Source.chunks).flatten ∧
    (runSegments SwitchableStream.initState segs).status = DownStatus.closedNormal ∧
    (runSegments SwitchableStream.initState segs).switches = segs.length := by
  have := runSegments_clean segs SwitchableStream.initState h rfl
    (by intro src hsrc; simp [SwitchableStream.initState] at hsrc)
  simpa [SwitchableStream.initState] using this

/-- Witness for C3 at two concrete segments. -/
theorem splicer_output_is_ordered_join_witness :
    (runSegments SwitchableStream.initState
        [(⟨["a", "b"], false, false⟩ : Source String), ⟨["c"], false, false⟩]).output =
      ([[ "a", "b"], ["c"]] : List (List String)).flatten ∧
    (runSegments SwitchableStream.initState
        [(⟨["a", "b"], false, false⟩ : Source String), ⟨["c"], false, false⟩]).status =
      DownStatus.closedNormal ∧
    (runSegments SwitchableStream.initState
        [(⟨["a", "b"], false, false⟩ : Source String), ⟨["c"], false, false⟩]).switches = 2 :=
  splicer_output_is_ordered_join
    [⟨["a", "b"], false, false⟩, ⟨["c"], false, false⟩] (by decide)

/-- Helper: messages whose role is not user leave the current model of the
streamText fold unchanged. -/
theorem foldl_updateModel_nonuser (list : List ModelInfo) (tail : List Message)
    (h : ∀ t ∈ tail, t.role ≠ Role.user) :
    ∀ cur, tail.foldl (updateModel list) cur = cur := by
  induction tail with
  | nil => intro cur; rfl
  | cons t ts ih =>
    intro cur
    have ht : t.role ≠ Role.user := h t (by simp)
    have hstep : updateModel list cur t = cur := by
      obtain ⟨r, c⟩ := t
      cases r with
      | user => exact absurd rfl ht
      | assistant => rfl
      | system => rfl
    rw [List.foldl_cons, hstep]
    exact ih (fun x hx => h x (by simp [hx])) cur

/-- Helper: the model resolved over a list ending in one user turn followed
only by non-user turns is the update of the resolution of the earlier turns
by that user turn. -/
theorem resolveModel_latest (list : List ModelInfo) (ms tail : List Message)
    (msg : Message) (htail : ∀ t ∈ tail, t.role ≠ Role.user) :
    resolveModel list (ms ++ msg :: tail) =
      updateModel list (resolveModel list ms) msg := by
  rw [resolveModel, List.foldl_append, List.foldl_cons,
    foldl_updateModel_nonuser list tail htail]
  rfl

/-- Helper: a successful lazy capture decomposes its input as the captured
identifier, the close bracket, the blank line, and the remainder. -/
theorem matchIdent_reconstruct (l : List Char) :
    ∀ i r, matchIdent l = some (i, r) → l = i ++ ']' :: '\n' :: '\n' :: r := by
  induction l with
  | nil => intro i r h; simp [matchIdent] at h
  | cons c cs ih =>
    intro i r h
    rw [matchIdent] at h
    split_ifs at h with h1 h2
    · obtain ⟨hc, htake⟩ := h1
      obtain ⟨hi, hr⟩ := Prod.mk.injEq .. ▸ Option.some.injEq .. ▸ h
      subst hc
      rw [← hi, ← hr]
      have : cs.take 2 ++ cs.drop 2 = cs := List.take_append_drop 2 cs
      rw [← this, htake]
      rfl
    · obtain ⟨p, hp, hpr⟩ := Option.map_eq_some'.mp h
      obtain ⟨hi, hr⟩ := Prod.mk.injEq .. ▸ hpr
      rw [← hi, ← hr]
      have := ih p.1 p.2 (by rw [hp])
      rw [List.cons_append, ← this]

/-- Helper: a successful tag match decomposes its input as the literal
directive head followed by the remainder. -/
theorem dropModelTag_reconstruct (l : List Char) (r : List Char)
    (h : dropModelTag l = some r) :
    l = '[' :: 'M' :: 'o' :: 'd' :: 'e' :: 'l' :: ':' :: ' ' :: r := by
  rw [dropModelTag.eq_def] at h
  split at h
  · simp_all
  · exact absurd h (by simp)

/-- Claim C5 (counterexample).  The claim asserts that when the latest user
turn carries directive X and X is not a known model, routing uses the default
model and provider.  With an earlier user turn carrying the recognized
directive gpt-4o and a latest turn carrying the unknown directive
bogus-model, the code routes (gpt-4o, OpenAI), not the default pair. -/
theorem unknown_directive_keeps_earlier_model :
    streamTextResolved MODEL_LIST
        [⟨.user, .text ("[Model: gpt-4o]\n\nhi")⟩,
         ⟨.user, .text ("[Model: bogus-model]\n\nok")⟩] = ("gpt-4o", "OpenAI") ∧
    hasDirective ⟨.user, .text ("[Model: bogus-model]\n\nok")⟩ = true ∧
    (MODEL_LIST.find? fun m => m.name = "bogus-model").isSome = false ∧
    ("gpt-4o", "OpenAI") ≠ (DEFAULT_MODEL, DEFAULT_PROVIDER) := by
  refine ⟨by decide, by decide, by decide, by decide⟩

/-- Claim C5 (amended).  When the latest user turn matches the directive
pattern with identifier X and cleaned content rest, the turn content is
exactly the directive head, X, the blank-line separator and rest, the
forwarded content is exactly rest, routing uses X when X is truthy and in the
model list, and otherwise the directive leaves the routed model unchanged
from the one resolved over the earlier turns (the default when no earlier
user turn set a recognized model). -/
theorem directive_routing_amended (ms tail : List Message) (s X rest : String)
    (hdir : hasDirective ⟨.user, .text s⟩ = true)
    (hext : extractModelFromMessage ⟨.user, .text s⟩ = (X, rest))
    (htail : ∀ t ∈ tail, t.role ≠ Role.user) :
    s.toList = "[Model: ".toList ++ X.toList ++ "]\n\n".toList ++ rest.toList ∧
    processMessage ⟨.user, .text s⟩ = ⟨.user, .text rest⟩ ∧
    (X ≠ "" → (MODEL_LIST.find? fun m => m.name = X).isSome = true →
      streamTextResolved MODEL_LIST (ms ++ ⟨.user, .text s⟩ :: tail) =
        (X, resolveProvider MODEL_LIST X)) ∧
    ((X = "" ∨ (MODEL_LIST.find? fun m => m.name = X).isSome = false) →
      resolveModel MODEL_LIST (ms ++ ⟨.user, .text s⟩ :: tail) =
        resolveModel MODEL_LIST ms) := by
  have hup : updateModel MODEL_LIST (resolveModel MODEL_LIST ms) ⟨.user, .text s⟩ =
      (if X = "" then resolveModel MODEL_LIST ms
       else if (MODEL_LIST.find? fun m => m.name = X).isSome then X
       else resolveModel MODEL_LIST ms) := by
    simp [updateModel, hext]
  obtain ⟨r0, hdt⟩ : ∃ r0, dropModelTag s.toList = some r0 := by
    rw [hasDirective.eq_def] at hdir
    simp only at hdir
    rcases h : dropModelTag s.toList with - | r0
    · rw [h] at hdir; simp at hdir
    · exact ⟨r0, rfl⟩
  obtain ⟨p, hmi⟩ : ∃ p, matchIdent r0 = some p := by
    rw [hasDirective.eq_def] at hdir
    simp only [hdt] at hdir
    exact Option.isSome_iff_exists.mp hdir
  have hxr : X = String.mk p.1 ∧ rest = String.mk p.2 := by
    rw [extractModelFromMessage.eq_def] at hext
    simp only [hdt, hmi] at hext
    exact ⟨(Prod.mk.injEq .. ▸ hext).1.symm, (Prod.mk.injEq .. ▸ hext).2.symm⟩
  refine ⟨?_, ?_, ?_, ?_⟩
  · rw [dropModelTag_reconstruct _ _ hdt, matchIdent_reconstruct _ _ _ hmi,
      hxr.1, hxr.2]
    simp only [List.append_assoc]
    rfl
  · simp [processMessage, hext]
  · intro hne hfound
    rw [streamTextResolved, resolveModel_latest MODEL_LIST ms tail _ htail, hup]
    simp [hne, hfound]
  · intro hcase
    rw [resolveModel_latest MODEL_LIST ms tail _ htail, hup]
    rcases hcase with hx | hx
    · simp [hx]
    · rcases em (X = "") with he | he
      · simp [he]
      · simp [he, hx]

/-- Witness for the amended C5, matching the scenario test of the spec:
a single user turn with the recognized directive gpt-4o routes to gpt-4o and
forwards Hello. -/
theorem directive_routing_amended_witness :
    streamTextResolved MODEL_LIST
        ([] ++ ⟨.user, .text ("[Model: gpt-4o]\n\nHello")⟩ :: []) =
      ("gpt-4o", resolveProvider MODEL_LIST ("gpt-4o")) :=
  (directive_routing_amended [] [] "[Model: gpt-4o]\n\nHello" "gpt-4o" "Hello"
    (by decide) rfl (by simp)).2.2.1 (by decide) (by decide)

/-- Claim C6.  When the latest user turn carries no model directive, the
resolved model and provider equal the configured defaults, regardless of
directives in earlier turns: processing the directive-free latest user turn
resets the current model to the default, which is in the registry with the
default provider. -/
theorem no_directive_resolves_default (ms tail : List Message) (msg : Message)
    (hrole : msg.role = Role.user)
    (hdir : hasDirective msg = false)
    (htail : ∀ t ∈ tail, t.role ≠ Role.user) :
    streamTextResolved MODEL_LIST (ms ++ msg :: tail) =
      (DEFAULT_MODEL, DEFAULT_PROVIDER) := by
  have hm : (extractModelFromMessage msg).1 = DEFAULT_MODEL := by
    obtain ⟨r, c⟩ := msg
    cases c with
    | nonText => rfl
    | text s =>
      rcases hdt : dropModelTag s.toList with - | r0
      · have hdt2 : dropModelTag s.data = none := hdt
        simp [extractModelFromMessage, hdt2]
      · have hdt2 : dropModelTag s.data = some r0 := hdt
        rw [hasDirective.eq_def] at hdir
        simp only [hdt, hdt2] at hdir
        rcases hmi : matchIdent r0 with - | p
        · simp [extractModelFromMessage, hdt2, hmi]
        · rw [hmi] at hdir
          simp at hdir
  have hup : updateModel MODEL_LIST (resolveModel MODEL_LIST ms) msg = DEFAULT_MODEL := by
    obtain ⟨r, c⟩ := msg
    simp only at hrole
    subst hrole
    rw [updateModel]
    simp only at hm
    rw [hm]
    have h1 : ¬(DEFAULT_MODEL = "") := by decide
    have h2 : (MODEL_LIST.find? fun m => m.name = DEFAULT_MODEL).isSome = true := by decide
    simp [h1, h2]
  rw [streamTextResolved, resolveModel_latest MODEL_LIST ms tail _ htail, hup]
  have : resolveProvider MODEL_LIST DEFAULT_MODEL = DEFAULT_PROVIDER := by decide
  rw [this]

/-- Witness for C6: an earlier turn selects gpt-4o, the latest user turn has
no directive, trailing assistant turn present; routing is the default pair. -/
theorem no_directive_resolves_default_witness :
    streamTextResolved MODEL_LIST
        ([⟨.user, .text ("[Model: gpt-4o]\n\nHi")⟩] ++
          ⟨.user, .text ("Hello")⟩ :: [⟨.assistant, .text ("ok")⟩]) =
      (DEFAULT_MODEL, DEFAULT_PROVIDER) :=
  no_directive_resolves_default [⟨.user, .text ("[Model: gpt-4o]\n\nHi")⟩]
    [⟨.assistant, .text ("ok")⟩] ⟨.user, .text ("Hello")⟩ rfl (by decide) (by decide)

/-- Claim C10.  A user message beginning with the empty directive and blank
line still has that prefix stripped from the forwarded content, but the empty
captured identifier fails the truthiness check, so the current model is not
updated by this message, and a conversation consisting of it alone routes to
the default model and provider. -/
theorem empty_directive_stripped_default_routing (ms : List Message) (rest : String) :
    extractModelFromMessage ⟨.user, .text ("[Model: ]\n\n" ++ rest)⟩ = ("", rest) ∧
    processMessage ⟨.user, .text ("[Model: ]\n\n" ++ rest)⟩ = ⟨.user, .text rest⟩ ∧
    resolveModel MODEL_LIST (ms ++ [⟨.user, .text ("[Model: ]\n\n" ++ rest)⟩]) =
      resolveModel MODEL_LIST ms ∧
    streamTextResolved MODEL_LIST [⟨.user, .text ("[Model: ]\n\n" ++ rest)⟩] =
      (DEFAULT_MODEL, DEFAULT_PROVIDER) := by
  have hext : extractModelFromMessage ⟨.user, .text ("[Model: ]\n\n" ++ rest)⟩ = ("", rest) := by
    show extractModelFromMessage
        ⟨.user, .text (String.mk ("[Model: ]\n\n".toList ++ rest.toList))⟩ = ("", rest)
    rfl
  have hup : ∀ cur, updateModel MODEL_LIST cur ⟨.user, .text ("[Model: ]\n\n" ++ rest)⟩ = cur := by
    intro cur
    simp [updateModel, hext]
  refine ⟨hext, by simp [processMessage, hext], ?_, ?_⟩
  · rw [resolveModel, List.foldl_append]
    simp only [List.foldl_cons, List.foldl_nil, hup]
    rfl
  · rw [streamTextResolved]
    have h1 : resolveModel MODEL_LIST [⟨.user, .text ("[Model: ]\n\n" ++ rest)⟩] =
        DEFAULT_MODEL := by
      rw [resolveModel, List.foldl_cons, hup, List.foldl_nil]
    rw [h1]
    have : resolveProvider MODEL_LIST DEFAULT_MODEL = DEFAULT_PROVIDER := by decide
    rw [this]
